import Mathlib

/-!
Shallow embedding of the `dbstats` Go package (github.com/cgilling/dbstats):
a `database/sql/driver` wrapper that emits lifecycle events (connection
open/close, statement prepare/close, transaction begin/commit/rollback,
query/exec, row iteration) to registered hooks, plus the `CounterHook`
observer that aggregates those events into counters.

The driver proxies are embedded from `driver.go` (the revision whose `Hook`
callbacks carry the `error` outcome): `statsDriver.Open`, `statsConn`
(`Prepare`/`Close`/`Begin`), `statsQueryer.Query`, `statsExecer.Exec`,
`statsStmt` (`Close`/`Exec`/`Query`), `statsRows.Next` and
`statsTx.Commit`/`Rollback`.  `CounterHook` is embedded from the
`counterhook.go` revision with per-kind error counters
(`connErrs`/`stmtErrs`/`txOpenErrs`/`txCloseErrs`/`queryErrs`/`execErrs`/
`rowErrs`), the revision exercised by `counterhook_test.go`.

Modelling conventions:
* A Go `error` value is `Option GoError`; `GoError.eof` is the distinguished
  `io.EOF` sentinel and `GoError.other n` is any other non-nil error.
* Each call into the wrapped backend object is replaced by its outcome,
  passed as an explicit argument (an oracle): fallible backend calls yield
  `Except GoError β` (the `database/sql/driver` contract: a successful call
  returns a usable object, a failed one returns its error).
* `time.Duration` values are `Nat` oracles (the proxies never inspect them).
* The fan-out over the driver's hook list is modelled by a single hook state
  `σ` with one update function per callback (a list of hooks is the instance
  `σ := List of states`); `traceHook` records the emitted events, and
  `counterHook` is the `CounterHook` instance.
* `int64` counters are unbounded `Int`; two-complement wraparound at `2^63`
  is not modelled (no counted event sequence approaches it).
-/

/-- Go error values: `eof` is the distinguished `io.EOF` sentinel, and
`other n` stands for any other non-nil error value. -/
inductive GoError where
  | eof : GoError
  | other : Nat → GoError
deriving DecidableEq, Repr

/-- The error component of a backend-call outcome, as the Go caller sees it:
`nil` on success, the error otherwise. -/
def resErr {α : Type} : Except GoError α → Option GoError
  | Except.ok _ => none
  | Except.error e => some e

/-- A backend `driver.Conn`, reduced to the two optional capabilities the
wrapper inspects: whether the dynamic type implements `driver.Queryer` and
whether it implements `driver.Execer`. -/
structure BackendConn where
  isQueryer : Bool
  isExecer : Bool
deriving DecidableEq, Repr

/-- A backend `driver.Stmt`: its `NumInput` and the optional
`driver.ColumnConverter` capability (`some f` when the dynamic type
implements it, with `f` the per-column converter lookup; converters are
identified by opaque codes `Nat → Nat`). -/
structure BackendStmt where
  numInput : Nat
  columnConverter : Option (Nat → Nat)

/-- A backend `driver.Rows` cursor, scripted: `steps` lists the outcomes of
the successive `Next` calls (`none` = a row was produced, `some e` = error);
once the script is exhausted the cursor keeps returning `io.EOF`, like the
test driver's `fakeRows`. -/
structure BackendRows where
  steps : List (Option GoError)
deriving DecidableEq, Repr

/-- A backend `driver.Tx` (opaque: its `Commit`/`Rollback` outcomes are
oracle arguments). -/
structure BackendTx where
  id : Nat
deriving DecidableEq, Repr

/-- A backend `driver.Result` (opaque: the proxies never inspect it). -/
structure BackendResult where
  id : Nat
deriving DecidableEq, Repr

/-- The `Hook` interface of `driver.go`, over a hook state `σ`: one state
update per callback.  The last argument of each callback is the `error`
outcome; durations are `Nat`, query text is `String`. -/
structure Hook (σ : Type) where
  ConnOpened : σ → Option GoError → σ
  ConnClosed : σ → Option GoError → σ
  StmtPrepared : σ → String → Option GoError → σ
  StmtClosed : σ → Option GoError → σ
  TxBegan : σ → Option GoError → σ
  TxCommitted : σ → Option GoError → σ
  TxRolledback : σ → Option GoError → σ
  Queried : σ → Nat → String → Option GoError → σ
  Execed : σ → Nat → String → Option GoError → σ
  RowIterated : σ → Option GoError → σ

/-- One emitted event, ten kinds as in the `Hook` interface, carrying the
outcome and, where applicable, duration and query text. -/
inductive Event where
  | connOpened (err : Option GoError)
  | connClosed (err : Option GoError)
  | stmtPrepared (query : String) (err : Option GoError)
  | stmtClosed (err : Option GoError)
  | txBegan (err : Option GoError)
  | txCommitted (err : Option GoError)
  | txRolledback (err : Option GoError)
  | queried (d : Nat) (query : String) (err : Option GoError)
  | execed (d : Nat) (query : String) (err : Option GoError)
  | rowIterated (err : Option GoError)
deriving DecidableEq, Repr

/-- A hook that records the sequence of emitted events: its state is the
event trace, and each callback appends the corresponding event. -/
def traceHook : Hook (List Event) where
  ConnOpened := fun t e => t ++ [Event.connOpened e]
  ConnClosed := fun t e => t ++ [Event.connClosed e]
  StmtPrepared := fun t q e => t ++ [Event.stmtPrepared q e]
  StmtClosed := fun t e => t ++ [Event.stmtClosed e]
  TxBegan := fun t e => t ++ [Event.txBegan e]
  TxCommitted := fun t e => t ++ [Event.txCommitted e]
  TxRolledback := fun t e => t ++ [Event.txRolledback e]
  Queried := fun t d q e => t ++ [Event.queried d q e]
  Execed := fun t d q e => t ++ [Event.execed d q e]
  RowIterated := fun t e => t ++ [Event.rowIterated e]

/-- The `CounterHook` struct of `counterhook.go` (the revision with per-kind
error counters): eleven success counters/gauges and seven error counters,
all `int64` in Go, modelled as `Int`. -/
structure CounterHook where
  openConns : Int
  totalConns : Int
  openStmts : Int
  totalStmts : Int
  openTxs : Int
  totalTxs : Int
  committedTxs : Int
  rolledbackTxs : Int
  queries : Int
  execs : Int
  rowsIterated : Int
  connErrs : Int
  stmtErrs : Int
  txOpenErrs : Int
  txCloseErrs : Int
  queryErrs : Int
  execErrs : Int
  rowErrs : Int
deriving DecidableEq, Repr

/-- The zero value of `CounterHook` (Go's `&CounterHook{}`). -/
def CounterHook.init : CounterHook :=
  ⟨0, 0, 0, 0, 0, 0, 0, 0, 0, 0, 0, 0, 0, 0, 0, 0, 0, 0⟩

/-- Accessor `OpenConns`: the current count of open connections. -/
def CounterHook.OpenConns (h : CounterHook) : Int := h.openConns

/-- Accessor `TotalConns`: the total number of connections ever made. -/
def CounterHook.TotalConns (h : CounterHook) : Int := h.totalConns

/-- Accessor `OpenStmts`: the current count of prepared statements. -/
def CounterHook.OpenStmts (h : CounterHook) : Int := h.openStmts

/-- Accessor `TotalStmts`: the total number of statements ever prepared. -/
def CounterHook.TotalStmts (h : CounterHook) : Int := h.totalStmts

/-- Accessor `OpenTxs`: the current number of open transactions. -/
def CounterHook.OpenTxs (h : CounterHook) : Int := h.openTxs

/-- Accessor `TotalTxs`: the total number of transactions ever opened. -/
def CounterHook.TotalTxs (h : CounterHook) : Int := h.totalTxs

/-- Accessor `CommittedTxs`: the total number of committed transactions. -/
def CounterHook.CommittedTxs (h : CounterHook) : Int := h.committedTxs

/-- Accessor `RolledbackTxs`: the total number of rolled back transactions. -/
def CounterHook.RolledbackTxs (h : CounterHook) : Int := h.rolledbackTxs

/-- Accessor `Queries`: the total number of Query statements ran. -/
def CounterHook.Queries (h : CounterHook) : Int := h.queries

/-- Accessor `Execs`: the total number of Exec statements ran. -/
def CounterHook.Execs (h : CounterHook) : Int := h.execs

/-- Accessor `RowsIterated`: the total number of rows iterated through. -/
def CounterHook.RowsIterated (h : CounterHook) : Int := h.rowsIterated

/-- Accessor `ConnErrs`: errors encountered trying to open a connection. -/
def CounterHook.ConnErrs (h : CounterHook) : Int := h.connErrs

/-- Accessor `StmtErrs`: errors encountered trying to prepare a statement. -/
def CounterHook.StmtErrs (h : CounterHook) : Int := h.stmtErrs

/-- Accessor `TxOpenErrs`: errors encountered trying to begin a transaction. -/
def CounterHook.TxOpenErrs (h : CounterHook) : Int := h.txOpenErrs

/-- Accessor `TxCloseErrs`: errors encountered trying to commit or roll back
a transaction. -/
def CounterHook.TxCloseErrs (h : CounterHook) : Int := h.txCloseErrs

/-- Accessor `QueryErrs`: errors encountered trying to run a query. -/
def CounterHook.QueryErrs (h : CounterHook) : Int := h.queryErrs

/-- Accessor `ExecErrs`: errors encountered trying to exec a command. -/
def CounterHook.ExecErrs (h : CounterHook) : Int := h.execErrs

/-- Accessor `RowErrs`: errors encountered while iterating rows. -/
def CounterHook.RowErrs (h : CounterHook) : Int := h.rowErrs

/-- `CounterHook.ConnOpened`: on success increment `openConns` and
`totalConns`, on failure increment `connErrs`. -/
def CounterHook.ConnOpened (h : CounterHook) (err : Option GoError) : CounterHook :=
  match err with
  | none => { h with openConns := h.openConns + 1, totalConns := h.totalConns + 1 }
  | some _ => { h with connErrs := h.connErrs + 1 }

/-- `CounterHook.ConnClosed`: decrement `openConns` (the outcome is ignored). -/
def CounterHook.ConnClosed (h : CounterHook) (_err : Option GoError) : CounterHook :=
  { h with openConns := h.openConns - 1 }

/-- `CounterHook.StmtPrepared`: on success increment `openStmts` and
`totalStmts`, on failure increment `stmtErrs`. -/
def CounterHook.StmtPrepared (h : CounterHook) (_query : String) (err : Option GoError) :
    CounterHook :=
  match err with
  | none => { h with openStmts := h.openStmts + 1, totalStmts := h.totalStmts + 1 }
  | some _ => { h with stmtErrs := h.stmtErrs + 1 }

/-- `CounterHook.StmtClosed`: decrement `openStmts` (the outcome is ignored). -/
def CounterHook.StmtClosed (h : CounterHook) (_err : Option GoError) : CounterHook :=
  { h with openStmts := h.openStmts - 1 }

/-- `CounterHook.TxBegan`: on success increment `openTxs` and `totalTxs`, on
failure increment `txOpenErrs`. -/
def CounterHook.TxBegan (h : CounterHook) (err : Option GoError) : CounterHook :=
  match err with
  | none => { h with openTxs := h.openTxs + 1, totalTxs := h.totalTxs + 1 }
  | some _ => { h with txOpenErrs := h.txOpenErrs + 1 }

/-- `CounterHook.TxCommitted`: decrement `openTxs` unconditionally; on
success increment `committedTxs`, on failure increment `txCloseErrs`. -/
def CounterHook.TxCommitted (h : CounterHook) (err : Option GoError) : CounterHook :=
  match err with
  | none => { h with openTxs := h.openTxs - 1, committedTxs := h.committedTxs + 1 }
  | some _ => { h with openTxs := h.openTxs - 1, txCloseErrs := h.txCloseErrs + 1 }

/-- `CounterHook.TxRolledback`: decrement `openTxs` unconditionally; on
success increment `rolledbackTxs`, on failure increment `txCloseErrs`. -/
def CounterHook.TxRolledback (h : CounterHook) (err : Option GoError) : CounterHook :=
  match err with
  | none => { h with openTxs := h.openTxs - 1, rolledbackTxs := h.rolledbackTxs + 1 }
  | some _ => { h with openTxs := h.openTxs - 1, txCloseErrs := h.txCloseErrs + 1 }

/-- `CounterHook.Queried`: on success increment `queries`, on failure
increment `queryErrs`. -/
def CounterHook.Queried (h : CounterHook) (_d : Nat) (_query : String)
    (err : Option GoError) : CounterHook :=
  match err with
  | none => { h with queries := h.queries + 1 }
  | some _ => { h with queryErrs := h.queryErrs + 1 }

/-- `CounterHook.Execed`: on success increment `execs`, on failure increment
`execErrs`. -/
def CounterHook.Execed (h : CounterHook) (_d : Nat) (_query : String)
    (err : Option GoError) : CounterHook :=
  match err with
  | none => { h with execs := h.execs + 1 }
  | some _ => { h with execErrs := h.execErrs + 1 }

/-- `CounterHook.RowIterated`: on success increment `rowsIterated`, on
failure increment `rowErrs`. -/
def CounterHook.RowIterated (h : CounterHook) (err : Option GoError) : CounterHook :=
  match err with
  | none => { h with rowsIterated := h.rowsIterated + 1 }
  | some _ => { h with rowErrs := h.rowErrs + 1 }

/-- `CounterHook` packaged as a `Hook` instance. -/
def counterHook : Hook CounterHook where
  ConnOpened := CounterHook.ConnOpened
  ConnClosed := CounterHook.ConnClosed
  StmtPrepared := CounterHook.StmtPrepared
  StmtClosed := CounterHook.StmtClosed
  TxBegan := CounterHook.TxBegan
  TxCommitted := CounterHook.TxCommitted
  TxRolledback := CounterHook.TxRolledback
  Queried := CounterHook.Queried
  Execed := CounterHook.Execed
  RowIterated := CounterHook.RowIterated

/-- The connection proxy returned by `statsDriver.Open`: one variant per
capability combination of the wrapped backend connection.  `statsQueryer`
and `statsExecer` embed `statsConn` together with the capability interface
of the same wrapped connection; `statsExecerQueryer` embeds all three. -/
inductive ProxyConn where
  | statsConn (wrapped : BackendConn)
  | statsQueryer (wrapped : BackendConn)
  | statsExecer (wrapped : BackendConn)
  | statsExecerQueryer (wrapped : BackendConn)
deriving DecidableEq, Repr

/-- Whether the proxy value implements `driver.Queryer` (has a `Query`
method): true exactly for the `statsQueryer` and `statsExecerQueryer`
variants. -/
def ProxyConn.isQueryer : ProxyConn → Bool
  | ProxyConn.statsQueryer _ => true
  | ProxyConn.statsExecerQueryer _ => true
  | _ => false

/-- Whether the proxy value implements `driver.Execer` (has an `Exec`
method): true exactly for the `statsExecer` and `statsExecerQueryer`
variants. -/
def ProxyConn.isExecer : ProxyConn → Bool
  | ProxyConn.statsExecer _ => true
  | ProxyConn.statsExecerQueryer _ => true
  | _ => false

/-- `statsDriver.Open`: call the stored open function (outcome `res`), emit
`ConnOpened` with the outcome; on failure return the backend error with no
proxy; on success wrap the connection in the proxy variant matching its
`Queryer`/`Execer` capability combination (detected once, here). -/
def statsDriver.Open {σ : Type} (hk : Hook σ) (s : σ) (res : Except GoError BackendConn) :
    Option ProxyConn × Option GoError × σ :=
  let s1 := hk.ConnOpened s (resErr res)
  match res with
  | Except.error e => (none, some e, s1)
  | Except.ok c =>
    if c.isExecer && c.isQueryer then
      (some (ProxyConn.statsExecerQueryer c), none, s1)
    else if c.isQueryer then
      (some (ProxyConn.statsQueryer c), none, s1)
    else if c.isExecer then
      (some (ProxyConn.statsExecer c), none, s1)
    else
      (some (ProxyConn.statsConn c), none, s1)

/-- The statement proxy returned by `statsConn.Prepare`: the plain
`statsStmt` wrapper, or the `statsColumnConverter` variant that embeds a
`statsStmt` together with the wrapped statement's `ColumnConverter`
interface `cc`. -/
inductive ProxyStmt where
  | statsStmt (wrapped : BackendStmt) (query : String)
  | statsColumnConverter (wrapped : BackendStmt) (query : String) (cc : Nat → Nat)

/-- Whether the statement proxy implements `driver.ColumnConverter`: true
exactly for the `statsColumnConverter` variant. -/
def ProxyStmt.hasColumnConverter : ProxyStmt → Bool
  | ProxyStmt.statsColumnConverter _ _ _ => true
  | ProxyStmt.statsStmt _ _ => false

/-- The per-column converter lookup of the statement proxy:
`statsColumnConverter.ColumnConverter(idx)` forwards to the wrapped
interface, so the lookup function is `some cc`; the plain `statsStmt`
variant has no such method. -/
def ProxyStmt.columnConverterFn : ProxyStmt → Option (Nat → Nat)
  | ProxyStmt.statsColumnConverter _ _ cc => some cc
  | ProxyStmt.statsStmt _ _ => none

/-- `statsConn.Prepare`: delegate (outcome `res`), emit `StmtPrepared` with
the query and outcome; on success wrap the backend statement, choosing the
`statsColumnConverter` variant exactly when the backend statement implements
`driver.ColumnConverter`. -/
def statsConn.Prepare {σ : Type} (hk : Hook σ) (s : σ) (query : String)
    (res : Except GoError BackendStmt) : Option ProxyStmt × Option GoError × σ :=
  let s1 := hk.StmtPrepared s query (resErr res)
  match res with
  | Except.error e => (none, some e, s1)
  | Except.ok st =>
    match st.columnConverter with
    | some cc => (some (ProxyStmt.statsColumnConverter st query cc), none, s1)
    | none => (some (ProxyStmt.statsStmt st query), none, s1)

/-- `statsConn.Close`: delegate (backend outcome `err`), emit `ConnClosed`
with the outcome, return the backend error unchanged. -/
def statsConn.Close {σ : Type} (hk : Hook σ) (s : σ) (err : Option GoError) :
    Option GoError × σ :=
  (err, hk.ConnClosed s err)

/-- The transaction proxy `statsTx`, wrapping a backend transaction. -/
structure StatsTx where
  wrapped : BackendTx
deriving DecidableEq, Repr

/-- `statsConn.Begin`: delegate (outcome `res`), emit `TxBegan` with the
outcome; on success wrap the transaction in a `statsTx`. -/
def statsConn.Begin {σ : Type} (hk : Hook σ) (s : σ) (res : Except GoError BackendTx) :
    Option StatsTx × Option GoError × σ :=
  let s1 := hk.TxBegan s (resErr res)
  match res with
  | Except.error e => (none, some e, s1)
  | Except.ok tx => (some (StatsTx.mk tx), none, s1)

/-- The result-set proxy `statsRows`, wrapping a backend cursor. -/
structure StatsRows where
  wrapped : BackendRows
deriving DecidableEq, Repr

/-- One backend `Next` call on a scripted cursor: pop the next outcome, or
keep returning the `io.EOF` sentinel once the script is exhausted. -/
def BackendRows.next : BackendRows → Option GoError × BackendRows
  | BackendRows.mk [] => (some GoError.eof, BackendRows.mk [])
  | BackendRows.mk (e :: rest) => (e, BackendRows.mk rest)

/-- The hook effect of `statsRows.Next` given the backend outcome `err`:
emit `RowIterated(err)` unless `err` is the `io.EOF` sentinel
(`if err != io.EOF` in the source). -/
def statsRows.nextEffect {σ : Type} (hk : Hook σ) (s : σ) (err : Option GoError) : σ :=
  if err = some GoError.eof then s else hk.RowIterated s err

/-- `statsRows.Next`: delegate to the wrapped cursor, emit `RowIterated`
with the outcome unless it is `io.EOF`, and return the backend outcome
unchanged. -/
def statsRows.Next {σ : Type} (hk : Hook σ) (s : σ) (r : StatsRows) :
    Option GoError × σ × StatsRows :=
  let p := r.wrapped.next
  (p.1, statsRows.nextEffect hk s p.1, StatsRows.mk p.2)

/-- `statsQueryer.Query`: delegate (outcome `res`, duration `d`), emit
`Queried` with duration, query text and outcome; on success wrap the
returned cursor in a `statsRows`, on failure return the raw error with no
proxy. -/
def statsQueryer.Query {σ : Type} (hk : Hook σ) (s : σ) (query : String) (d : Nat)
    (res : Except GoError BackendRows) : Option StatsRows × Option GoError × σ :=
  let s1 := hk.Queried s d query (resErr res)
  match res with
  | Except.error e => (none, some e, s1)
  | Except.ok r => (some (StatsRows.mk r), none, s1)

/-- `statsExecer.Exec`: delegate (backend result `res.1`, error `res.2`,
duration `d`), emit `Execed` with duration, query text and outcome; the
result value is returned unmodified. -/
def statsExecer.Exec {σ : Type} (hk : Hook σ) (s : σ) (query : String) (d : Nat)
    (res : Option BackendResult × Option GoError) :
    Option BackendResult × Option GoError × σ :=
  (res.1, res.2, hk.Execed s d query res.2)

/-- `statsStmt.Close`: delegate (backend outcome `err`), emit `StmtClosed`
with the outcome, return the backend error unchanged. -/
def statsStmt.Close {σ : Type} (hk : Hook σ) (s : σ) (err : Option GoError) :
    Option GoError × σ :=
  (err, hk.StmtClosed s err)

/-- `statsStmt.NumInput`: pure forward to the wrapped statement. -/
def statsStmt.NumInput (st : BackendStmt) : Nat :=
  st.numInput

/-- `statsStmt.Exec`: like `statsExecer.Exec` but the query text is the one
captured at prepare time. -/
def statsStmt.Exec {σ : Type} (hk : Hook σ) (s : σ) (query : String) (d : Nat)
    (res : Option BackendResult × Option GoError) :
    Option BackendResult × Option GoError × σ :=
  (res.1, res.2, hk.Execed s d query res.2)

/-- `statsStmt.Query`: like `statsQueryer.Query` but the query text is the
one captured at prepare time. -/
def statsStmt.Query {σ : Type} (hk : Hook σ) (s : σ) (query : String) (d : Nat)
    (res : Except GoError BackendRows) : Option StatsRows × Option GoError × σ :=
  let s1 := hk.Queried s d query (resErr res)
  match res with
  | Except.error e => (none, some e, s1)
  | Except.ok r => (some (StatsRows.mk r), none, s1)

/-- `statsTx.Commit`: delegate (backend outcome `err`), emit `TxCommitted`
with the outcome, return the backend error unchanged. -/
def statsTx.Commit {σ : Type} (hk : Hook σ) (s : σ) (err : Option GoError) :
    Option GoError × σ :=
  (err, hk.TxCommitted s err)

/-- `statsTx.Rollback`: delegate (backend outcome `err`), emit
`TxRolledback` with the outcome, return the backend error unchanged. -/
def statsTx.Rollback {σ : Type} (hk : Hook σ) (s : σ) (err : Option GoError) :
    Option GoError × σ :=
  (err, hk.TxRolledback s err)

/-- Dispatch of one emitted event to the `CounterHook` callbacks (the hook
side of the driver's fan-out). -/
def CounterHook.apply (h : CounterHook) : Event → CounterHook
  | Event.connOpened e => h.ConnOpened e
  | Event.connClosed e => h.ConnClosed e
  | Event.stmtPrepared q e => h.StmtPrepared q e
  | Event.stmtClosed e => h.StmtClosed e
  | Event.txBegan e => h.TxBegan e
  | Event.txCommitted e => h.TxCommitted e
  | Event.txRolledback e => h.TxRolledback e
  | Event.queried d q e => h.Queried d q e
  | Event.execed d q e => h.Execed d q e
  | Event.rowIterated e => h.RowIterated e

/-- Dispatch of a whole event sequence to a `CounterHook`, in order. -/
def CounterHook.applyAll (h : CounterHook) (es : List Event) : CounterHook :=
  es.foldl CounterHook.apply h

/-- Whether an event is a successful connection-opened event. -/
def Event.isSuccConnOpened : Event → Bool
  | Event.connOpened none => true
  | _ => false

/-- Whether an event is a connection-closed event (any outcome). -/
def Event.isConnClosed : Event → Bool
  | Event.connClosed _ => true
  | _ => false

/-- A driver-mediated operation: one call on the driver or on one of its
live proxy objects, carrying the wrapped backend call's outcome as an
oracle.  Queries/execs exist both on connections (the optional
`Queryer`/`Execer` capabilities) and on prepared statements. -/
inductive DOp where
  | openConn (res : Except GoError BackendConn)
  | closeConn (err : Option GoError)
  | prepareStmt (query : String) (res : Except GoError BackendStmt)
  | closeStmt (err : Option GoError)
  | beginTx (res : Except GoError BackendTx)
  | commitTx (err : Option GoError)
  | rollbackTx (err : Option GoError)
  | connQuery (query : String) (d : Nat) (res : Except GoError BackendRows)
  | connExec (query : String) (d : Nat) (r : Option BackendResult) (err : Option GoError)
  | stmtQuery (query : String) (d : Nat) (res : Except GoError BackendRows)
  | stmtExec (query : String) (d : Nat) (r : Option BackendResult) (err : Option GoError)
  | rowNext (err : Option GoError)
  | closeRows

/-- The state of a run of the instrumented driver with a single registered
`CounterHook`: how many connection / statement / transaction / result-set
proxies are currently live, and the hook's counters. -/
structure DState where
  liveConns : Nat
  liveStmts : Nat
  liveTxs : Nat
  liveRows : Nat
  hook : CounterHook
deriving DecidableEq, Repr

/-- The initial state: no proxies, zeroed counters. -/
def initState : DState :=
  ⟨0, 0, 0, 0, CounterHook.init⟩

/-- One driver-mediated step: each case invokes the corresponding embedded
proxy method with the `CounterHook` instance, and tracks proxy lifetimes
(an operation on a proxy requires one to be live; a successful
open/prepare/begin/query creates one; a close/commit/rollback consumes
one).  `none` means the operation is not available in this state. -/
def step (s : DState) : DOp → Option DState
  | DOp.openConn res =>
    let r := statsDriver.Open counterHook s.hook res
    some { s with liveConns := s.liveConns + (if r.1.isSome then 1 else 0), hook := r.2.2 }
  | DOp.closeConn err =>
    if s.liveConns = 0 then none else
    let r := statsConn.Close counterHook s.hook err
    some { s with liveConns := s.liveConns - 1, hook := r.2 }
  | DOp.prepareStmt q res =>
    if s.liveConns = 0 then none else
    let r := statsConn.Prepare counterHook s.hook q res
    some { s with liveStmts := s.liveStmts + (if r.1.isSome then 1 else 0), hook := r.2.2 }
  | DOp.closeStmt err =>
    if s.liveStmts = 0 then none else
    let r := statsStmt.Close counterHook s.hook err
    some { s with liveStmts := s.liveStmts - 1, hook := r.2 }
  | DOp.beginTx res =>
    if s.liveConns = 0 then none else
    let r := statsConn.Begin counterHook s.hook res
    some { s with liveTxs := s.liveTxs + (if r.1.isSome then 1 else 0), hook := r.2.2 }
  | DOp.commitTx err =>
    if s.liveTxs = 0 then none else
    let r := statsTx.Commit counterHook s.hook err
    some { s with liveTxs := s.liveTxs - 1, hook := r.2 }
  | DOp.rollbackTx err =>
    if s.liveTxs = 0 then none else
    let r := statsTx.Rollback counterHook s.hook err
    some { s with liveTxs := s.liveTxs - 1, hook := r.2 }
  | DOp.connQuery q d res =>
    if s.liveConns = 0 then none else
    let r := statsQueryer.Query counterHook s.hook q d res
    some { s with liveRows := s.liveRows + (if r.1.isSome then 1 else 0), hook := r.2.2 }
  | DOp.connExec q d rr err =>
    if s.liveConns = 0 then none else
    let r := statsExecer.Exec counterHook s.hook q d (rr, err)
    some { s with hook := r.2.2 }
  | DOp.stmtQuery q d res =>
    if s.liveStmts = 0 then none else
    let r := statsStmt.Query counterHook s.hook q d res
    some { s with liveRows := s.liveRows + (if r.1.isSome then 1 else 0), hook := r.2.2 }
  | DOp.stmtExec q d rr err =>
    if s.liveStmts = 0 then none else
    let r := statsStmt.Exec counterHook s.hook q d (rr, err)
    some { s with hook := r.2.2 }
  | DOp.rowNext err =>
    if s.liveRows = 0 then none else
    some { s with hook := statsRows.nextEffect counterHook s.hook err }
  | DOp.closeRows =>
    if s.liveRows = 0 then none else
    some { s with liveRows := s.liveRows - 1 }

/-- Run a list of driver-mediated operations from a state; fails if any
operation is unavailable. -/
def runOps (s : DState) : List DOp → Option DState
  | [] => some s
  | op :: ops =>
    match step s op with
    | none => none
    | some s1 => runOps s1 ops

/-- States reachable by driver-mediated operation sequences from the
initial state. -/
inductive Reachable : DState → Prop where
  | init : Reachable initState
  | step (s : DState) (op : DOp) (s1 : DState) :
      Reachable s → step s op = some s1 → Reachable s1

/-- Whether an operation is a successful connection open. -/
def DOp.isSuccOpen : DOp → Bool
  | DOp.openConn (Except.ok _) => true
  | _ => false

/-- Whether an operation is a successful statement prepare. -/
def DOp.isSuccPrepare : DOp → Bool
  | DOp.prepareStmt _ (Except.ok _) => true
  | _ => false

/-- Whether an operation is a successful transaction begin. -/
def DOp.isSuccBegin : DOp → Bool
  | DOp.beginTx (Except.ok _) => true
  | _ => false

/-- Iterate `statsRows.Next` a given number of times, threading the hook
state and the cursor. -/
def iterateNext {σ : Type} (hk : Hook σ) : Nat → σ × StatsRows → σ × StatsRows
  | 0, p => p
  | n + 1, p =>
    let q := statsRows.Next hk p.1 p.2
    iterateNext hk n (q.2.1, q.2.2)

/-- On a successful backend open, `statsDriver.Open` always returns a proxy
(each capability branch produces one). -/
theorem open_ok_isSome {σ : Type} (hk : Hook σ) (s : σ) (c : BackendConn) :
    ((statsDriver.Open hk s (Except.ok c)).1).isSome = true := by
  obtain ⟨q, e⟩ := c
  cases q <;> cases e <;> rfl

/-- `statsDriver.Open` always leaves the hook state updated by exactly one
`ConnOpened` callback carrying the outcome. -/
theorem open_hook_state {σ : Type} (hk : Hook σ) (s : σ) (res : Except GoError BackendConn) :
    (statsDriver.Open hk s res).2.2 = hk.ConnOpened s (resErr res) := by
  cases res with
  | error e => rfl
  | ok c =>
    obtain ⟨q, e⟩ := c
    cases q <;> cases e <;> rfl

/-- `statsDriver.Open` returns the backend outcome's error component
unchanged. -/
theorem open_err {σ : Type} (hk : Hook σ) (s : σ) (res : Except GoError BackendConn) :
    (statsDriver.Open hk s res).2.1 = resErr res := by
  cases res with
  | error e => rfl
  | ok c =>
    obtain ⟨q, e⟩ := c
    cases q <;> cases e <;> rfl

/-- Claim C1: for every backend connection returned by the stored open
function, the proxy returned by `statsDriver.Open` implements `Queryer` iff
the backend connection does, and implements `Execer` iff the backend
connection does, for all four capability combinations; detection happens
once, at wrap time, inside `Open`. -/
theorem claim_C1 {σ : Type} (hk : Hook σ) (s : σ) (c : BackendConn) :
    ∃ p : ProxyConn, (statsDriver.Open hk s (Except.ok c)).1 = some p ∧
      p.isQueryer = c.isQueryer ∧ p.isExecer = c.isExecer := by
  obtain ⟨q, e⟩ := c
  cases q <;> cases e <;> exact ⟨_, rfl, rfl, rfl⟩

/-- Claim C4: every `statsDriver.Open` call emits exactly one
connection-opened event carrying the outcome (success or failure); on
failure the backend error is returned unchanged, no proxy is constructed,
and the `CounterHook` gains one `ConnErrs` with `TotalConns` and
`OpenConns` unchanged. -/
theorem claim_C4 {σ : Type} (hk : Hook σ) (s : σ) (t : List Event) (h : CounterHook)
    (res : Except GoError BackendConn) (e : GoError) :
    (statsDriver.Open traceHook t res).2.2 = t ++ [Event.connOpened (resErr res)] ∧
    (statsDriver.Open hk s (Except.error e)).1 = none ∧
    (statsDriver.Open hk s (Except.error e)).2.1 = some e ∧
    (statsDriver.Open counterHook h (Except.error e)).2.2.ConnErrs = h.ConnErrs + 1 ∧
    (statsDriver.Open counterHook h (Except.error e)).2.2.TotalConns = h.TotalConns ∧
    (statsDriver.Open counterHook h (Except.error e)).2.2.OpenConns = h.OpenConns := by
  refine ⟨?_, rfl, rfl, rfl, rfl, rfl⟩
  rw [open_hook_state]
  rfl

/-- Claim C6: `statsTx.Commit` returns the backend error unchanged, always
emits a transaction-committed event carrying the outcome, and decrements
the open-transaction gauge unconditionally (also on failure); `Rollback`
symmetrically; and the concrete driver-mediated run open, begin, begin,
rollback, commit (all succeeding) yields `TotalTxs = 2`, `OpenTxs = 0`,
`CommittedTxs = 1`, `RolledbackTxs = 1`. -/
theorem claim_C6 (h : CounterHook) (e : Option GoError) (t : List Event) :
    (statsTx.Commit counterHook h e).1 = e ∧
    (statsTx.Commit traceHook t e).2 = t ++ [Event.txCommitted e] ∧
    (statsTx.Commit counterHook h e).2.OpenTxs = h.OpenTxs - 1 ∧
    (statsTx.Rollback counterHook h e).1 = e ∧
    (statsTx.Rollback traceHook t e).2 = t ++ [Event.txRolledback e] ∧
    (statsTx.Rollback counterHook h e).2.OpenTxs = h.OpenTxs - 1 ∧
    (runOps initState
        [DOp.openConn (Except.ok (BackendConn.mk false false)),
         DOp.beginTx (Except.ok (BackendTx.mk 0)),
         DOp.beginTx (Except.ok (BackendTx.mk 1)),
         DOp.rollbackTx none,
         DOp.commitTx none]).map
        (fun s1 => (s1.hook.TotalTxs, s1.hook.OpenTxs, s1.hook.CommittedTxs,
          s1.hook.RolledbackTxs))
      = some (2, 0, 1, 1) := by
  refine ⟨rfl, rfl, ?_, rfl, rfl, ?_, by decide⟩ <;>
    cases e <;>
      simp [statsTx.Commit, statsTx.Rollback, counterHook, CounterHook.TxCommitted,
        CounterHook.TxRolledback, CounterHook.OpenTxs]

/-- Counterexample to claim C7: applying a failed commit and a failed
rollback to the same `CounterHook` state produces identical counter states
(both increment the shared `txCloseErrs`), so a failed commit is not
distinguishable from a failed rollback in the counters. -/
theorem claim_C7_counterexample :
    (statsTx.Commit counterHook CounterHook.init (some (GoError.other 0))).2
      = (statsTx.Rollback counterHook CounterHook.init (some (GoError.other 0))).2 ∧
    (statsTx.Commit counterHook CounterHook.init (some (GoError.other 0))).2.TxCloseErrs
      = 1 := by
  decide

/-- Claim C7 as amended: a failed begin increments its own error counter
(`TxOpenErrs`), but failed commits and failed rollbacks share the single
error counter `TxCloseErrs`; neither failure touches the three totals, and
a failed commit leaves the `CounterHook` in exactly the same state as a
failed rollback, so the two are not distinguishable in the counters. -/
theorem claim_C7 (h : CounterHook) (e : GoError) :
    ((statsConn.Begin counterHook h (Except.error e)).2.2).TxOpenErrs = h.TxOpenErrs + 1 ∧
    ((statsConn.Begin counterHook h (Except.error e)).2.2).TxCloseErrs = h.TxCloseErrs ∧
    ((statsConn.Begin counterHook h (Except.error e)).2.2).TotalTxs = h.TotalTxs ∧
    ((statsTx.Commit counterHook h (some e)).2).TxCloseErrs = h.TxCloseErrs + 1 ∧
    ((statsTx.Commit counterHook h (some e)).2).TxOpenErrs = h.TxOpenErrs ∧
    ((statsTx.Commit counterHook h (some e)).2).CommittedTxs = h.CommittedTxs ∧
    ((statsTx.Rollback counterHook h (some e)).2).TxCloseErrs = h.TxCloseErrs + 1 ∧
    ((statsTx.Rollback counterHook h (some e)).2).TxOpenErrs = h.TxOpenErrs ∧
    ((statsTx.Rollback counterHook h (some e)).2).RolledbackTxs = h.RolledbackTxs ∧
    (statsTx.Commit counterHook h (some e)).2 = (statsTx.Rollback counterHook h (some e)).2 :=
  ⟨rfl, rfl, rfl, rfl, rfl, rfl, rfl, rfl, rfl, rfl⟩

/-- Claim C8: every proxy operation returns to the caller exactly the error
value the wrapped backend call produced (never swallowed, wrapped or
translated) and exactly the backend's result value (up to wrapping a
successful cursor in its proxy); the equations hold for an arbitrary hook
state and hook implementation, so registered hooks cannot alter the value
or error the caller receives. -/
theorem claim_C8 {σ : Type} (hk : Hook σ) (s : σ) (resC : Except GoError BackendConn)
    (q : String) (resS : Except GoError BackendStmt) (resT : Except GoError BackendTx)
    (resR : Except GoError BackendRows) (er : Option GoError)
    (rr : Option BackendResult) (d : Nat) (r : StatsRows) (rows : BackendRows) :
    (statsDriver.Open hk s resC).2.1 = resErr resC ∧
    (statsConn.Close hk s er).1 = er ∧
    (statsConn.Prepare hk s q resS).2.1 = resErr resS ∧
    (statsConn.Begin hk s resT).2.1 = resErr resT ∧
    (statsTx.Commit hk s er).1 = er ∧
    (statsTx.Rollback hk s er).1 = er ∧
    (statsStmt.Close hk s er).1 = er ∧
    (statsStmt.Exec hk s q d (rr, er)).1 = rr ∧
    (statsStmt.Exec hk s q d (rr, er)).2.1 = er ∧
    (statsExecer.Exec hk s q d (rr, er)).1 = rr ∧
    (statsExecer.Exec hk s q d (rr, er)).2.1 = er ∧
    (statsStmt.Query hk s q d resR).2.1 = resErr resR ∧
    (statsQueryer.Query hk s q d resR).2.1 = resErr resR ∧
    (statsStmt.Query hk s q d (Except.ok rows)).1 = some (StatsRows.mk rows) ∧
    (statsQueryer.Query hk s q d (Except.ok rows)).1 = some (StatsRows.mk rows) ∧
    (statsRows.Next hk s r).1 = r.wrapped.next.1 := by
  refine ⟨open_err hk s resC, rfl, ?_, ?_, rfl, rfl, rfl, rfl, rfl, rfl, rfl, ?_, ?_,
    rfl, rfl, rfl⟩
  · cases resS with
    | error e => rfl
    | ok st => cases hst : st.columnConverter <;> simp [statsConn.Prepare, hst, resErr]
  · cases resT <;> rfl
  · cases resR <;> rfl
  · cases resR <;> rfl

/-- Claim C9: a successful `Prepare` yields a statement proxy that reports
the column-converter capability iff the backend statement implements it,
and the proxy's per-column converter lookup is exactly the backend
statement's lookup (forwarded unchanged). -/
theorem claim_C9 {σ : Type} (hk : Hook σ) (s : σ) (q : String) (st : BackendStmt)
    (n : Nat) (f : Nat → Nat) (idx : Nat) :
    ((statsConn.Prepare hk s q (Except.ok st)).1.map ProxyStmt.hasColumnConverter)
      = some st.columnConverter.isSome ∧
    ((statsConn.Prepare hk s q (Except.ok st)).1.bind ProxyStmt.columnConverterFn)
      = st.columnConverter ∧
    ((statsConn.Prepare hk s q (Except.ok (BackendStmt.mk n (some f)))).1.bind
        (fun p => (ProxyStmt.columnConverterFn p).map (fun g => g idx)))
      = some (f idx) ∧
    (statsConn.Prepare hk s q (Except.ok (BackendStmt.mk n none))).1
      = some (ProxyStmt.statsStmt (BackendStmt.mk n none) q) := by
  refine ⟨?_, ?_, rfl, rfl⟩ <;>
    · obtain ⟨ni, cc⟩ := st
      cases cc <;> rfl

/-- Claim C2: `statsRows.Next` forwards the backend cursor's return value
unchanged; the row-iterated event is emitted iff the return is not the
`io.EOF` sentinel; iterating a two-row result set to exhaustion adds
exactly 2 to `RowsIterated()` while the terminating end-of-data call
changes no counter at all; and any other non-nil error adds 1 to
`RowErrs()` and leaves `RowsIterated()` unchanged. -/
theorem claim_C2 {σ : Type} (hk : Hook σ) (s : σ) (r : StatsRows) (h : CounterHook)
    (t : List Event) (n : Nat) :
    (statsRows.Next hk s r).1 = r.wrapped.next.1 ∧
    statsRows.nextEffect traceHook t (some GoError.eof) = t ∧
    statsRows.nextEffect traceHook t none = t ++ [Event.rowIterated none] ∧
    statsRows.nextEffect traceHook t (some (GoError.other n))
      = t ++ [Event.rowIterated (some (GoError.other n))] ∧
    (iterateNext counterHook 3 (h, StatsRows.mk (BackendRows.mk [none, none]))).1.RowsIterated
      = h.RowsIterated + 2 ∧
    (iterateNext counterHook 3 (h, StatsRows.mk (BackendRows.mk [none, none]))).1.RowErrs
      = h.RowErrs ∧
    (iterateNext counterHook 3 (h, StatsRows.mk (BackendRows.mk [none, none]))).1
      = (iterateNext counterHook 2 (h, StatsRows.mk (BackendRows.mk [none, none]))).1 ∧
    (statsRows.nextEffect counterHook h (some (GoError.other n))).RowErrs = h.RowErrs + 1 ∧
    (statsRows.nextEffect counterHook h (some (GoError.other n))).RowsIterated
      = h.RowsIterated := by
  refine ⟨rfl, rfl, rfl, rfl, ?_, ?_, ?_, rfl, rfl⟩ <;>
    · simp [iterateNext, statsRows.Next, statsRows.nextEffect, BackendRows.next,
        counterHook, CounterHook.RowIterated, CounterHook.RowsIterated, CounterHook.RowErrs]
      all_goals omega

/-- One event changes `totalConns` exactly when it is a successful
connection-opened event. -/
theorem apply_totalConns (h : CounterHook) (ev : Event) :
    (h.apply ev).totalConns
      = h.totalConns + (if ev.isSuccConnOpened then 1 else 0) := by
  cases ev with
  | connOpened e =>
    cases e <;>
      simp [CounterHook.apply, CounterHook.ConnOpened, Event.isSuccConnOpened]
  | connClosed e => simp [CounterHook.apply, CounterHook.ConnClosed, Event.isSuccConnOpened]
  | stmtPrepared q e =>
    cases e <;>
      simp [CounterHook.apply, CounterHook.StmtPrepared, Event.isSuccConnOpened]
  | stmtClosed e => simp [CounterHook.apply, CounterHook.StmtClosed, Event.isSuccConnOpened]
  | txBegan e =>
    cases e <;> simp [CounterHook.apply, CounterHook.TxBegan, Event.isSuccConnOpened]
  | txCommitted e =>
    cases e <;> simp [CounterHook.apply, CounterHook.TxCommitted, Event.isSuccConnOpened]
  | txRolledback e =>
    cases e <;> simp [CounterHook.apply, CounterHook.TxRolledback, Event.isSuccConnOpened]
  | queried d q e =>
    cases e <;> simp [CounterHook.apply, CounterHook.Queried, Event.isSuccConnOpened]
  | execed d q e =>
    cases e <;> simp [CounterHook.apply, CounterHook.Execed, Event.isSuccConnOpened]
  | rowIterated e =>
    cases e <;> simp [CounterHook.apply, CounterHook.RowIterated, Event.isSuccConnOpened]

/-- One event changes `openConns` by +1 on a successful connection-opened
event, by -1 on a connection-closed event, and not at all otherwise. -/
theorem apply_openConns (h : CounterHook) (ev : Event) :
    (h.apply ev).openConns
      = h.openConns + (if ev.isSuccConnOpened then 1 else 0)
          - (if ev.isConnClosed then 1 else 0) := by
  cases ev with
  | connOpened e =>
    cases e <;>
      simp [CounterHook.apply, CounterHook.ConnOpened, Event.isSuccConnOpened,
        Event.isConnClosed]
  | connClosed e =>
    simp [CounterHook.apply, CounterHook.ConnClosed, Event.isSuccConnOpened,
      Event.isConnClosed]
  | stmtPrepared q e =>
    cases e <;>
      simp [CounterHook.apply, CounterHook.StmtPrepared, Event.isSuccConnOpened,
        Event.isConnClosed]
  | stmtClosed e =>
    simp [CounterHook.apply, CounterHook.StmtClosed, Event.isSuccConnOpened,
      Event.isConnClosed]
  | txBegan e =>
    cases e <;>
      simp [CounterHook.apply, CounterHook.TxBegan, Event.isSuccConnOpened,
        Event.isConnClosed]
  | txCommitted e =>
    cases e <;>
      simp [CounterHook.apply, CounterHook.TxCommitted, Event.isSuccConnOpened,
        Event.isConnClosed]
  | txRolledback e =>
    cases e <;>
      simp [CounterHook.apply, CounterHook.TxRolledback, Event.isSuccConnOpened,
        Event.isConnClosed]
  | queried d q e =>
    cases e <;>
      simp [CounterHook.apply, CounterHook.Queried, Event.isSuccConnOpened,
        Event.isConnClosed]
  | execed d q e =>
    cases e <;>
      simp [CounterHook.apply, CounterHook.Execed, Event.isSuccConnOpened,
        Event.isConnClosed]
  | rowIterated e =>
    cases e <;>
      simp [CounterHook.apply, CounterHook.RowIterated, Event.isSuccConnOpened,
        Event.isConnClosed]

/-- Over a whole event sequence, `totalConns` grows by exactly the number
of successful connection-opened events. -/
theorem applyAll_totalConns (h : CounterHook) (es : List Event) :
    (h.applyAll es).totalConns
      = h.totalConns + (es.countP Event.isSuccConnOpened : Int) := by
  induction es generalizing h with
  | nil => simp [CounterHook.applyAll]
  | cons ev rest ih =>
    have h1 := ih (h.apply ev)
    simp only [CounterHook.applyAll, List.foldl_cons] at h1 ⊢
    rw [h1, apply_totalConns, List.countP_cons]
    cases hev : ev.isSuccConnOpened <;>
      · simp [hev]
        all_goals omega

/-- Over a whole event sequence, `openConns` changes by the number of
successful connection-opened events minus the number of connection-closed
events. -/
theorem applyAll_openConns (h : CounterHook) (es : List Event) :
    (h.applyAll es).openConns
      = h.openConns + (es.countP Event.isSuccConnOpened : Int)
          - (es.countP Event.isConnClosed : Int) := by
  induction es generalizing h with
  | nil => simp [CounterHook.applyAll]
  | cons ev rest ih =>
    have h1 := ih (h.apply ev)
    simp only [CounterHook.applyAll, List.foldl_cons] at h1 ⊢
    rw [h1, apply_openConns, List.countP_cons, List.countP_cons]
    cases hev : ev.isSuccConnOpened <;> cases hev2 : ev.isConnClosed <;>
      simp [hev, hev2] <;> omega

/-- Claim C5: for any event sequence containing exactly N successful
connection opens and M connection closes (whatever their outcomes and
however they are interleaved with events of other kinds — this covers in
particular N successful opens followed by M ≤ N closes), the `CounterHook`
reports `TotalConns() = N` and `OpenConns() = N - M`. -/
theorem claim_C5 (es : List Event) (N M : Nat)
    (hN : es.countP Event.isSuccConnOpened = N)
    (hM : es.countP Event.isConnClosed = M)
    (hMN : M ≤ N) :
    (CounterHook.init.applyAll es).TotalConns = (N : Int) ∧
    (CounterHook.init.applyAll es).OpenConns = (N : Int) - (M : Int) := by
  subst hN
  subst hM
  constructor
  · rw [CounterHook.TotalConns, applyAll_totalConns]
    simp [CounterHook.init]
  · rw [CounterHook.OpenConns, applyAll_openConns]
    simp [CounterHook.init]

/-- Witness for claim C5: the sequence open, open, begin, close (the close
failing) has N = 2 successful opens and M = 1 close, and the counters
report `TotalConns = 2` and `OpenConns = 2 - 1`. -/
theorem claim_C5_witness :
    (CounterHook.init.applyAll
        [Event.connOpened none, Event.connOpened none, Event.txBegan none,
         Event.connClosed (some (GoError.other 7))]).TotalConns = ((2 : Nat) : Int) ∧
    (CounterHook.init.applyAll
        [Event.connOpened none, Event.connOpened none, Event.txBegan none,
         Event.connClosed (some (GoError.other 7))]).OpenConns
      = ((2 : Nat) : Int) - ((1 : Nat) : Int) :=
  claim_C5
    [Event.connOpened none, Event.connOpened none, Event.txBegan none,
     Event.connClosed (some (GoError.other 7))]
    2 1 (by decide) (by decide) (by decide)

/-- The run invariant: each open gauge equals the number of live proxies of
that kind (hence is non-negative), and every other counter is
non-negative. -/
def RunInv (s : DState) : Prop :=
  s.hook.openConns = (s.liveConns : Int) ∧
  s.hook.openStmts = (s.liveStmts : Int) ∧
  s.hook.openTxs = (s.liveTxs : Int) ∧
  0 ≤ s.hook.totalConns ∧ 0 ≤ s.hook.totalStmts ∧ 0 ≤ s.hook.totalTxs ∧
  0 ≤ s.hook.committedTxs ∧ 0 ≤ s.hook.rolledbackTxs ∧ 0 ≤ s.hook.queries ∧
  0 ≤ s.hook.execs ∧ 0 ≤ s.hook.rowsIterated ∧ 0 ≤ s.hook.connErrs ∧
  0 ≤ s.hook.stmtErrs ∧ 0 ≤ s.hook.txOpenErrs ∧ 0 ≤ s.hook.txCloseErrs ∧
  0 ≤ s.hook.queryErrs ∧ 0 ≤ s.hook.execErrs ∧ 0 ≤ s.hook.rowErrs

/-- One driver-mediated step preserves the run invariant. -/
theorem inv_step {s : DState} {op : DOp} {s1 : DState}
    (hstep : step s op = some s1) (hI : RunInv s) : RunInv s1 := by
  obtain ⟨lc, ls, lt, lr, h⟩ := s
  simp only [RunInv] at hI
  cases op with
  | openConn res =>
    cases res with
    | error e =>
      simp only [step, statsDriver.Open, resErr] at hstep
      obtain rfl := Option.some.inj hstep
      simp only [RunInv]
      simp [CounterHook.ConnOpened, counterHook]
      omega
    | ok c =>
      simp only [step, open_hook_state, open_ok_isSome, resErr, if_true] at hstep
      obtain rfl := Option.some.inj hstep
      simp only [RunInv]
      simp [CounterHook.ConnOpened, counterHook]
      omega
  | closeConn err =>
    simp only [step, statsConn.Close] at hstep
    split at hstep
    · exact absurd hstep (by simp)
    · obtain rfl := Option.some.inj hstep
      simp only [RunInv]
      simp [CounterHook.ConnClosed, counterHook]
      omega
  | prepareStmt q res =>
    simp only [step, statsConn.Prepare] at hstep
    split at hstep
    · exact absurd hstep (by simp)
    · cases res with
      | error e =>
        simp only [resErr] at hstep
        obtain rfl := Option.some.inj hstep
        simp only [RunInv]
        simp [CounterHook.StmtPrepared, counterHook]
        omega
      | ok st =>
        cases hcc : st.columnConverter <;>
          · simp only [resErr, hcc] at hstep
            obtain rfl := Option.some.inj hstep
            simp only [RunInv]
            simp [CounterHook.StmtPrepared, counterHook]
            omega
  | closeStmt err =>
    simp only [step, statsStmt.Close] at hstep
    split at hstep
    · exact absurd hstep (by simp)
    · obtain rfl := Option.some.inj hstep
      simp only [RunInv]
      simp [CounterHook.StmtClosed, counterHook]
      omega
  | beginTx res =>
    simp only [step, statsConn.Begin] at hstep
    split at hstep
    · exact absurd hstep (by simp)
    · cases res with
      | error e =>
        simp only [resErr] at hstep
        obtain rfl := Option.some.inj hstep
        simp only [RunInv]
        simp [CounterHook.TxBegan, counterHook]
        omega
      | ok tx =>
        simp only [resErr] at hstep
        obtain rfl := Option.some.inj hstep
        simp only [RunInv]
        simp [CounterHook.TxBegan, counterHook]
        omega
  | commitTx err =>
    simp only [step, statsTx.Commit] at hstep
    split at hstep
    · exact absurd hstep (by simp)
    · obtain rfl := Option.some.inj hstep
      simp only [RunInv]
      cases err <;>
        · simp [CounterHook.TxCommitted, counterHook]
          omega
  | rollbackTx err =>
    simp only [step, statsTx.Rollback] at hstep
    split at hstep
    · exact absurd hstep (by simp)
    · obtain rfl := Option.some.inj hstep
      simp only [RunInv]
      cases err <;>
        · simp [CounterHook.TxRolledback, counterHook]
          omega
  | connQuery q d res =>
    simp only [step, statsQueryer.Query] at hstep
    split at hstep
    · exact absurd hstep (by simp)
    · cases res with
      | error e =>
        simp only [resErr] at hstep
        obtain rfl := Option.some.inj hstep
        simp only [RunInv]
        simp [CounterHook.Queried, counterHook]
        omega
      | ok r =>
        simp only [resErr] at hstep
        obtain rfl := Option.some.inj hstep
        simp only [RunInv]
        simp [CounterHook.Queried, counterHook]
        omega
  | connExec q d rr err =>
    simp only [step, statsExecer.Exec] at hstep
    split at hstep
    · exact absurd hstep (by simp)
    · obtain rfl := Option.some.inj hstep
      simp only [RunInv]
      cases err <;>
        · simp [CounterHook.Execed, counterHook]
          omega
  | stmtQuery q d res =>
    simp only [step, statsStmt.Query] at hstep
    split at hstep
    · exact absurd hstep (by simp)
    · cases res with
      | error e =>
        simp only [resErr] at hstep
        obtain rfl := Option.some.inj hstep
        simp only [RunInv]
        simp [CounterHook.Queried, counterHook]
        omega
      | ok r =>
        simp only [resErr] at hstep
        obtain rfl := Option.some.inj hstep
        simp only [RunInv]
        simp [CounterHook.Queried, counterHook]
        omega
  | stmtExec q d rr err =>
    simp only [step, statsStmt.Exec] at hstep
    split at hstep
    · exact absurd hstep (by simp)
    · obtain rfl := Option.some.inj hstep
      simp only [RunInv]
      cases err <;>
        · simp [CounterHook.Execed, counterHook]
          omega
  | rowNext err =>
    simp only [step, statsRows.nextEffect] at hstep
    split at hstep
    · exact absurd hstep (by simp)
    · obtain rfl := Option.some.inj hstep
      simp only [RunInv]
      rcases err with _ | g
      · simp [CounterHook.RowIterated, counterHook]
        omega
      · cases g <;>
          · simp [CounterHook.RowIterated, counterHook]
            omega
  | closeRows =>
    simp only [step] at hstep
    split at hstep
    · exact absurd hstep (by simp)
    · obtain rfl := Option.some.inj hstep
      simp only [RunInv]
      omega

/-- Every reachable state satisfies the run invariant. -/
theorem inv_reachable (s : DState) (hs : Reachable s) : RunInv s := by
  induction hs with
  | init => simp [RunInv, initState, CounterHook.init]
  | step s op s1 _ hstep ih => exact inv_step hstep ih

/-- One driver-mediated step changes each total counter exactly when the
operation is the corresponding successful open / prepare / begin. -/
theorem totals_step {s : DState} {op : DOp} {s1 : DState}
    (hstep : step s op = some s1) :
    s1.hook.totalConns = s.hook.totalConns + (if op.isSuccOpen then 1 else 0) ∧
    s1.hook.totalStmts = s.hook.totalStmts + (if op.isSuccPrepare then 1 else 0) ∧
    s1.hook.totalTxs = s.hook.totalTxs + (if op.isSuccBegin then 1 else 0) := by
  obtain ⟨lc, ls, lt, lr, h⟩ := s
  cases op with
  | openConn res =>
    cases res with
    | error e =>
      simp only [step, statsDriver.Open, resErr] at hstep
      obtain rfl := Option.some.inj hstep
      simp [CounterHook.ConnOpened, counterHook, DOp.isSuccOpen, DOp.isSuccPrepare,
        DOp.isSuccBegin]
    | ok c =>
      simp only [step, open_hook_state, resErr] at hstep
      obtain rfl := Option.some.inj hstep
      simp [CounterHook.ConnOpened, counterHook, DOp.isSuccOpen, DOp.isSuccPrepare,
        DOp.isSuccBegin]
  | closeConn err =>
    simp only [step, statsConn.Close] at hstep
    split at hstep
    · exact absurd hstep (by simp)
    · obtain rfl := Option.some.inj hstep
      simp [CounterHook.ConnClosed, counterHook, DOp.isSuccOpen, DOp.isSuccPrepare,
        DOp.isSuccBegin]
  | prepareStmt q res =>
    simp only [step, statsConn.Prepare] at hstep
    split at hstep
    · exact absurd hstep (by simp)
    · cases res with
      | error e =>
        simp only [resErr] at hstep
        obtain rfl := Option.some.inj hstep
        simp [CounterHook.StmtPrepared, counterHook, DOp.isSuccOpen, DOp.isSuccPrepare,
          DOp.isSuccBegin]
      | ok st =>
        cases hcc : st.columnConverter <;>
          · simp only [resErr, hcc] at hstep
            obtain rfl := Option.some.inj hstep
            simp [CounterHook.StmtPrepared, counterHook, DOp.isSuccOpen,
              DOp.isSuccPrepare, DOp.isSuccBegin]
  | closeStmt err =>
    simp only [step, statsStmt.Close] at hstep
    split at hstep
    · exact absurd hstep (by simp)
    · obtain rfl := Option.some.inj hstep
      simp [CounterHook.StmtClosed, counterHook, DOp.isSuccOpen, DOp.isSuccPrepare,
        DOp.isSuccBegin]
  | beginTx res =>
    simp only [step, statsConn.Begin] at hstep
    split at hstep
    · exact absurd hstep (by simp)
    · cases res with
      | error e =>
        simp only [resErr] at hstep
        obtain rfl := Option.some.inj hstep
        simp [CounterHook.TxBegan, counterHook, DOp.isSuccOpen, DOp.isSuccPrepare,
          DOp.isSuccBegin]
      | ok tx =>
        simp only [resErr] at hstep
        obtain rfl := Option.some.inj hstep
        simp [CounterHook.TxBegan, counterHook, DOp.isSuccOpen, DOp.isSuccPrepare,
          DOp.isSuccBegin]
  | commitTx err =>
    simp only [step, statsTx.Commit] at hstep
    split at hstep
    · exact absurd hstep (by simp)
    · obtain rfl := Option.some.inj hstep
      cases err <;>
        simp [CounterHook.TxCommitted, counterHook, DOp.isSuccOpen, DOp.isSuccPrepare,
          DOp.isSuccBegin]
  | rollbackTx err =>
    simp only [step, statsTx.Rollback] at hstep
    split at hstep
    · exact absurd hstep (by simp)
    · obtain rfl := Option.some.inj hstep
      cases err <;>
        simp [CounterHook.TxRolledback, counterHook, DOp.isSuccOpen, DOp.isSuccPrepare,
          DOp.isSuccBegin]
  | connQuery q d res =>
    simp only [step, statsQueryer.Query] at hstep
    split at hstep
    · exact absurd hstep (by simp)
    · cases res with
      | error e =>
        simp only [resErr] at hstep
        obtain rfl := Option.some.inj hstep
        simp [CounterHook.Queried, counterHook, DOp.isSuccOpen, DOp.isSuccPrepare,
          DOp.isSuccBegin]
      | ok r =>
        simp only [resErr] at hstep
        obtain rfl := Option.some.inj hstep
        simp [CounterHook.Queried, counterHook, DOp.isSuccOpen, DOp.isSuccPrepare,
          DOp.isSuccBegin]
  | connExec q d rr err =>
    simp only [step, statsExecer.Exec] at hstep
    split at hstep
    · exact absurd hstep (by simp)
    · obtain rfl := Option.some.inj hstep
      cases err <;>
        simp [CounterHook.Execed, counterHook, DOp.isSuccOpen, DOp.isSuccPrepare,
          DOp.isSuccBegin]
  | stmtQuery q d res =>
    simp only [step, statsStmt.Query] at hstep
    split at hstep
    · exact absurd hstep (by simp)
    · cases res with
      | error e =>
        simp only [resErr] at hstep
        obtain rfl := Option.some.inj hstep
        simp [CounterHook.Queried, counterHook, DOp.isSuccOpen, DOp.isSuccPrepare,
          DOp.isSuccBegin]
      | ok r =>
        simp only [resErr] at hstep
        obtain rfl := Option.some.inj hstep
        simp [CounterHook.Queried, counterHook, DOp.isSuccOpen, DOp.isSuccPrepare,
          DOp.isSuccBegin]
  | stmtExec q d rr err =>
    simp only [step, statsStmt.Exec] at hstep
    split at hstep
    · exact absurd hstep (by simp)
    · obtain rfl := Option.some.inj hstep
      cases err <;>
        simp [CounterHook.Execed, counterHook, DOp.isSuccOpen, DOp.isSuccPrepare,
          DOp.isSuccBegin]
  | rowNext err =>
    simp only [step, statsRows.nextEffect] at hstep
    split at hstep
    · exact absurd hstep (by simp)
    · obtain rfl := Option.some.inj hstep
      rcases err with _ | g
      · simp [CounterHook.RowIterated, counterHook, DOp.isSuccOpen, DOp.isSuccPrepare,
          DOp.isSuccBegin]
      · cases g <;>
          · simp only [statsRows.nextEffect]
            split <;>
              simp [CounterHook.RowIterated, counterHook, DOp.isSuccOpen,
                DOp.isSuccPrepare, DOp.isSuccBegin]
  | closeRows =>
    simp only [step] at hstep
    split at hstep
    · exact absurd hstep (by simp)
    · obtain rfl := Option.some.inj hstep
      simp [DOp.isSuccOpen, DOp.isSuccPrepare, DOp.isSuccBegin]

/-- Claim C3: in every state reachable by driver-mediated operation
sequences, the open gauges and every other `CounterHook` read accessor are
non-negative; and along every step each total counter is non-decreasing,
changing exactly when the operation is the corresponding successful
open / prepare / begin. -/
theorem claim_C3 :
    (∀ s : DState, Reachable s →
      0 ≤ s.hook.OpenConns ∧ 0 ≤ s.hook.TotalConns ∧ 0 ≤ s.hook.OpenStmts ∧
      0 ≤ s.hook.TotalStmts ∧ 0 ≤ s.hook.OpenTxs ∧ 0 ≤ s.hook.TotalTxs ∧
      0 ≤ s.hook.CommittedTxs ∧ 0 ≤ s.hook.RolledbackTxs ∧ 0 ≤ s.hook.Queries ∧
      0 ≤ s.hook.Execs ∧ 0 ≤ s.hook.RowsIterated ∧ 0 ≤ s.hook.ConnErrs ∧
      0 ≤ s.hook.StmtErrs ∧ 0 ≤ s.hook.TxOpenErrs ∧ 0 ≤ s.hook.TxCloseErrs ∧
      0 ≤ s.hook.QueryErrs ∧ 0 ≤ s.hook.ExecErrs ∧ 0 ≤ s.hook.RowErrs) ∧
    (∀ (s : DState) (op : DOp) (s1 : DState), step s op = some s1 →
      s1.hook.TotalConns = s.hook.TotalConns + (if op.isSuccOpen then 1 else 0) ∧
      s1.hook.TotalStmts = s.hook.TotalStmts + (if op.isSuccPrepare then 1 else 0) ∧
      s1.hook.TotalTxs = s.hook.TotalTxs + (if op.isSuccBegin then 1 else 0)) := by
  constructor
  · intro s hs
    have hI := inv_reachable s hs
    simp only [RunInv] at hI
    simp only [CounterHook.OpenConns, CounterHook.TotalConns, CounterHook.OpenStmts,
      CounterHook.TotalStmts, CounterHook.OpenTxs, CounterHook.TotalTxs,
      CounterHook.CommittedTxs, CounterHook.RolledbackTxs, CounterHook.Queries,
      CounterHook.Execs, CounterHook.RowsIterated, CounterHook.ConnErrs,
      CounterHook.StmtErrs, CounterHook.TxOpenErrs, CounterHook.TxCloseErrs,
      CounterHook.QueryErrs, CounterHook.ExecErrs, CounterHook.RowErrs]
    omega
  · intro s op s1 hstep
    have ht := totals_step hstep
    simpa only [CounterHook.TotalConns, CounterHook.TotalStmts, CounterHook.TotalTxs]
      using ht

/-- Witness for claim C3: the initial state is reachable and satisfies all
the non-negativity conclusions, and a concrete successful open step from it
increments `TotalConns` and no other total. -/
theorem claim_C3_witness :
    (0 ≤ initState.hook.OpenConns ∧ 0 ≤ initState.hook.TotalConns ∧
      0 ≤ initState.hook.OpenStmts ∧ 0 ≤ initState.hook.TotalStmts ∧
      0 ≤ initState.hook.OpenTxs ∧ 0 ≤ initState.hook.TotalTxs ∧
      0 ≤ initState.hook.CommittedTxs ∧ 0 ≤ initState.hook.RolledbackTxs ∧
      0 ≤ initState.hook.Queries ∧ 0 ≤ initState.hook.Execs ∧
      0 ≤ initState.hook.RowsIterated ∧ 0 ≤ initState.hook.ConnErrs ∧
      0 ≤ initState.hook.StmtErrs ∧ 0 ≤ initState.hook.TxOpenErrs ∧
      0 ≤ initState.hook.TxCloseErrs ∧ 0 ≤ initState.hook.QueryErrs ∧
      0 ≤ initState.hook.ExecErrs ∧ 0 ≤ initState.hook.RowErrs) ∧
    ((DState.mk 1 0 0 0
          (CounterHook.mk 1 1 0 0 0 0 0 0 0 0 0 0 0 0 0 0 0 0)).hook.TotalConns
        = initState.hook.TotalConns
          + (if (DOp.openConn (Except.ok (BackendConn.mk false false))).isSuccOpen
              then 1 else 0) ∧
      (DState.mk 1 0 0 0
          (CounterHook.mk 1 1 0 0 0 0 0 0 0 0 0 0 0 0 0 0 0 0)).hook.TotalStmts
        = initState.hook.TotalStmts
          + (if (DOp.openConn (Except.ok (BackendConn.mk false false))).isSuccPrepare
              then 1 else 0) ∧
      (DState.mk 1 0 0 0
          (CounterHook.mk 1 1 0 0 0 0 0 0 0 0 0 0 0 0 0 0 0 0)).hook.TotalTxs
        = initState.hook.TotalTxs
          + (if (DOp.openConn (Except.ok (BackendConn.mk false false))).isSuccBegin
              then 1 else 0)) :=
  ⟨claim_C3.1 initState Reachable.init,
   claim_C3.2 initState (DOp.openConn (Except.ok (BackendConn.mk false false)))
     (DState.mk 1 0 0 0 (CounterHook.mk 1 1 0 0 0 0 0 0 0 0 0 0 0 0 0 0 0 0))
     (by decide)⟩
